import Mathlib

/-!
Verification development for the Amazon review scraper
(`scrape.py`, `cookie_extractor.py`).

The Python source is shallowly embedded: pure text-processing helpers become
Lean functions over `List Char` / `String`, and the page-driven components
(`search_products`, `scrape_reviews`, `_extract_reviews_from_page`,
`automated_login`) become functions over explicit page-model structures whose
fields record what each Playwright query (`count`, `text_content`,
`get_attribute`, `is_visible`) would return.  Regular expressions from the
source are hand-compiled to deterministic matchers that follow Python `re`
semantics (leftmost match, lazy/greedy quantifiers as written) on the ASCII
fragment.  Logging, screenshots and network failures are diagnostics with no
effect on returned values and are not modelled; exception paths that do affect
results are modelled explicitly: the per-card and per-review
`except: continue` handlers, the `AttributeError` from `.strip()` on a null
`text_content`, and the Playwright strict-mode error raised by a
`text_content`/`get_attribute` read on a locator without `.first` that
matches two or more elements (the discovery rating read and every per-review
field read are such reads; the reads guarded by `.first` or using only
`count()` cannot raise this way).
-/

namespace AmazonGet

/-! ### Character classes and basic string utilities -/

/-- Python `\s` on the ASCII fragment (also the default `str.strip` set). -/
def pyIsSpace (c : Char) : Bool :=
  c = ' ' || c = '\t' || c = '\n' || c = '\r' || c = '\x0b' || c = '\x0c'

/-- `startsWithL pat l`: `pat` is a leading segment of `l`. -/
def startsWithL : List Char → List Char → Bool
  | [], _ => true
  | _ :: _, [] => false
  | p :: ps, c :: cs => p == c && startsWithL ps cs

/-- Python `pat in l` substring test. -/
def containsSub (pat : List Char) : List Char → Bool
  | [] => startsWithL pat []
  | c :: cs => startsWithL pat (c :: cs) || containsSub pat cs

/-- Substring test on `String` (`pat in hay` in Python). -/
def containsStr (hay pat : String) : Bool := containsSub pat.data hay.data

/-- Python `str.lower()` (ASCII fragment). -/
def lowerStr (s : String) : String := ⟨s.data.map Char.toLower⟩

/-- Python `str.strip()` on a character list. -/
def stripL (l : List Char) : List Char :=
  ((l.dropWhile pyIsSpace).reverse.dropWhile pyIsSpace).reverse

/-- Python `str.strip()`. -/
def stripStr (s : String) : String := ⟨stripL s.data⟩

/-- `startsWithL` on `String` (Python `str.startswith`). -/
def startsWithStr (pat s : String) : Bool := startsWithL pat.data s.data

/-! ### Hand-compiled regex fragments

The source uses four regexes, all applied with `re.search` / `re.sub`:
* `(\d+\.?\d*)\s+out of`            (`_extract_rating`)
* `(\d+\.?\d*)\s+out of\s+5` and
  `(\d+\.?\d*)\s+stars?`            (`_extract_rating_from_stars`)
* `(\d+)\s+people?\s+found`         (`_extract_helpful_votes`)
* `Reviewed in.*?on\s+`             (`_clean_date`, via `re.sub` with `''`)

Each is compiled to a deterministic matcher.  For the numeric group
`\d+\.?\d*` followed by `\s+`, greediness is forced: digits never overlap with
whitespace, and when the optional dot is present the no-dot alternative always
fails on `\s+`, so no search is needed beyond the one conditional below. -/

/-- `\s+` followed by a continuation predicate, with the greedy-maximal run of
whitespace (safe because no continuation below starts with whitespace). -/
def spacesThen (tail : List Char → Bool) (l : List Char) : Bool :=
  let sp := l.takeWhile pyIsSpace
  !sp.isEmpty && tail (l.dropWhile pyIsSpace)

/-- Match `(\d+\.?\d*)\s+` then `tail` at the head of `l`; returns group 1. -/
def numThenAt (tail : List Char → Bool) (l : List Char) : Option (List Char) :=
  let d1 := l.takeWhile Char.isDigit
  let r1 := l.dropWhile Char.isDigit
  if d1.isEmpty then none
  else
    match r1 with
    | '.' :: r2 =>
        let d2 := r2.takeWhile Char.isDigit
        let r3 := r2.dropWhile Char.isDigit
        if spacesThen tail r3 then some (d1 ++ '.' :: d2) else none
    | _ => if spacesThen tail r1 then some d1 else none

/-- `re.search` driver: try each start position left to right. -/
def searchNumGroup (tail : List Char → Bool) : List Char → Option (List Char)
  | [] => none
  | c :: cs =>
      match numThenAt tail (c :: cs) with
      | some g => some g
      | none => searchNumGroup tail cs

/-- Match the plain integer group `(\d+)\s+` then `tail` at the head of `l`
(no optional dot — used by the helpful-votes regex); returns group 1.
Greediness of `\d+` is forced since digits never overlap with `\s`. -/
def intThenAt (tail : List Char → Bool) (l : List Char) : Option (List Char) :=
  let d1 := l.takeWhile Char.isDigit
  let r1 := l.dropWhile Char.isDigit
  if d1.isEmpty then none
  else if spacesThen tail r1 then some d1 else none

/-- `re.search` driver for the plain integer group. -/
def searchIntGroup (tail : List Char → Bool) : List Char → Option (List Char)
  | [] => none
  | c :: cs =>
      match intThenAt tail (c :: cs) with
      | some g => some g
      | none => searchIntGroup tail cs

/-- Continuation `out of` (from `(\d+\.?\d*)\s+out of`). -/
def tailOutOf (l : List Char) : Bool := startsWithL "out of".data l

/-- Continuation `out of\s+5` (from `(\d+\.?\d*)\s+out of\s+5`). -/
def tailOutOf5 (l : List Char) : Bool :=
  startsWithL "out of".data l &&
    spacesThen (fun r => startsWithL ['5'] r) (l.drop 6)

/-- Continuation `stars?`: only the mandatory `star` decides a match. -/
def tailStar (l : List Char) : Bool := startsWithL "star".data l

/-- Continuation `people?\s+found`: `peopl`, an optional `e`, `\s+`, `found`.
If the optional `e` is present, dropping it cannot help (`e` is not
whitespace), so the matcher is deterministic. -/
def tailPeopleFound (l : List Char) : Bool :=
  startsWithL "peopl".data l &&
    (match l.drop 5 with
     | 'e' :: r2 => spacesThen (fun t => startsWithL "found".data t) r2
     | r => spacesThen (fun t => startsWithL "found".data t) r)

/-- Numeric value of a digit string. -/
def natOfDigits (l : List Char) : Nat :=
  l.foldl (fun a c => a * 10 + (c.toNat - 48)) 0

/-- Python `float` applied to a captured `\d+\.?\d*` group, as a rational:
`ip.fr` denotes `(ip * 10^|fr| + fr) / 10^|fr|`. -/
def ratOfGroup (g : List Char) : ℚ :=
  let ip := g.takeWhile Char.isDigit
  match g.dropWhile Char.isDigit with
  | '.' :: fr =>
      mkRat (natOfDigits ip * 10 ^ fr.length + natOfDigits fr) (10 ^ fr.length)
  | _ => mkRat (natOfDigits ip) 1

/-! ### Value parsers (`scrape.py` lines 227–232, 378–402) -/

/-- `AmazonReviewsScraper._extract_rating`: search `(\d+\.?\d*)\s+out of`,
`0.0` when empty or unmatched. -/
def extract_rating (s : String) : ℚ :=
  if s = "" then 0
  else
    match searchNumGroup tailOutOf s.data with
    | some g => ratOfGroup g
    | none => 0

/-- `AmazonReviewsScraper._extract_rating_from_stars`: search
`(\d+\.?\d*)\s+out of\s+5`, falling back to `(\d+\.?\d*)\s+stars?`. -/
def extract_rating_from_stars (s : String) : ℚ :=
  if s = "" then 0
  else
    match searchNumGroup tailOutOf5 s.data with
    | some g => ratOfGroup g
    | none =>
        match searchNumGroup tailStar s.data with
        | some g => ratOfGroup g
        | none => 0

/-- `AmazonReviewsScraper._extract_helpful_votes`: search
`(\d+)\s+people?\s+found`. -/
def extract_helpful_votes (s : String) : Nat :=
  if s = "" then 0
  else
    match searchIntGroup tailPeopleFound s.data with
    | some g => natOfDigits g
    | none => 0

/-! ### `_clean_date` and `re.sub(r'Reviewed in.*?on\s+', '', text)` -/

/-- Match `on\s+` at the head; returns the remainder after the greedy `\s+`. -/
def onSpAt : List Char → Option (List Char)
  | 'o' :: 'n' :: r =>
      let sp := r.takeWhile pyIsSpace
      if sp.isEmpty then none else some (r.dropWhile pyIsSpace)
  | _ => none

/-- Lazy `.*?on\s+` (`.` does not match a newline): at each position first try
`on\s+`, otherwise extend the lazy dot.  Returns the remainder after the
match. -/
def onScan : List Char → Option (List Char)
  | [] => none
  | c :: cs =>
      match onSpAt (c :: cs) with
      | some r => some r
      | none => if c = '\n' then none else onScan cs

/-- Match `Reviewed in.*?on\s+` at the head of `l`; returns the remainder. -/
def reviewedAt (l : List Char) : Option (List Char) :=
  if startsWithL "Reviewed in".data l then onScan (l.drop 11) else none

/-- `re.sub` scanner: `skip` characters of an already-matched span remain to be
discarded; at `skip = 0` try the pattern at the current position (deleting the
matched span and resuming after it, non-overlapping, as `re.sub` does),
otherwise keep the character. -/
def subGo : List Char → Nat → List Char
  | [], _ => []
  | _ :: cs, n + 1 => subGo cs n
  | c :: cs, 0 =>
      match reviewedAt (c :: cs) with
      | some r => subGo cs ((c :: cs).length - r.length - 1)
      | none => c :: subGo cs 0

/-- `re.sub(r'Reviewed in.*?on\s+', '', l)`. -/
def subReviewed (l : List Char) : List Char := subGo l 0

/-- `AmazonReviewsScraper._clean_date`. -/
def clean_date (s : String) : String :=
  if s = "" then "" else stripStr ⟨subReviewed s.data⟩

/-! ### Page models

Playwright calls are abstracted by structures recording what each query would
return on the page being scraped.  `text_content` and `get_attribute` return
`Option String` (they are nullable in Playwright); `count` returns a `Nat`. -/

/-- Python falsiness of an `Optional[str]` (`None` and `""` are falsy). -/
def falsyStr : Option String → Bool
  | none => true
  | some s => s == ""

/-- One search-result container (`card` in `search_products`). -/
structure Card where
  asin : Option String
  titleCount : String → Nat
  titleText : String → Option String
  linkCount : Nat
  linkHref : Option String
  priceCount : Nat
  priceText : Option String
  ratingCount : Nat
  ratingAria : Option String
  ratingTextC : Option String

/-- A discovered product (the dict appended in `search_products`). -/
structure Product where
  asin : String
  title : String
  link : Option String
  price : Option String
  rating : ℚ
  position : Nat
deriving DecidableEq

/-- The search-results page: per-selector match counts and matched cards. -/
structure SearchPage where
  selCount : String → Nat
  cards : String → List Card

/-- Result-container candidates (`selectors` in `search_products`). -/
def search_result_selectors : List String :=
  ["[data-component-type=\"s-search-result\"]",
   "[data-asin]:not([data-asin=\"\"])",
   ".s-result-item[data-asin]",
   "div.s-card-container"]

/-- Title candidates (`title_selectors` in `search_products`). -/
def title_selectors : List String :=
  ["h2 a span", "h2 span", ".a-text-normal", ".s-link-style span"]

/-- The `for selector in selectors: if count > 0: break` loop: first candidate
with at least one match. -/
def firstMatchingSelector (count : String → Nat) : List String → Option String
  | [] => none
  | s :: rest => if count s > 0 then some s else firstMatchingSelector count rest

/-- The per-card title loop: `title = "Unknown"`, overwritten by the
`text_content` of the first title selector with a match (which may be null). -/
def resolveTitleLoop (c : Card) : List String → Option String
  | [] => some "Unknown"
  | ts :: rest => if c.titleCount ts > 0 then c.titleText ts else resolveTitleLoop c rest

/-- `title.strip() if title else "Unknown"` applied to the loop result. -/
def cardTitle (c : Card) : String :=
  match resolveTitleLoop c title_selectors with
  | none => "Unknown"
  | some t => if t == "" then "Unknown" else stripStr t

/-- The link resolution: `relative_link` is the `href` of the first matched
link element (or `""` with no match), prefixed with the site origin when
non-empty and not already absolute. -/
def cardLink (c : Card) : Option String :=
  let rel : Option String := if c.linkCount > 0 then c.linkHref else some ""
  match rel with
  | none => none
  | some r =>
      if r != "" && !startsWithStr "http" r
      then some ("https://www.amazon.com" ++ r) else some r

/-- `price = text_content if count > 0 else "N/A"`. -/
def cardPrice (c : Card) : Option String :=
  if c.priceCount > 0 then c.priceText else some "N/A"

/-- The value of `rating_text` when the rating read succeeds (rating locator
matched at most one element): `aria-label` when the element matches, refreshed
from `text_content` when that is falsy. -/
def cardRatingTextVal (c : Card) : Option String :=
  let r1 : Option String := if c.ratingCount > 0 then c.ratingAria else some ""
  if falsyStr r1 then (if c.ratingCount > 0 then c.ratingTextC else some "") else r1

/-- The rating read (`scrape.py:192-195`).  The rating locator is used without
`.first`, so in Playwright strict mode `get_attribute`/`text_content` raises
when it matches two or more elements: the outer `none` models that raise
(caught by the per-card `except`, skipping the card); `some rt` is the value
of `rating_text`. -/
def cardRatingText (c : Card) : Option (Option String) :=
  if 2 ≤ c.ratingCount then none else some (cardRatingTextVal c)

/-- `_extract_rating` on a nullable text (`if not rating_text: return 0.0`). -/
def extract_rating_opt (s : Option String) : ℚ :=
  match s with
  | none => 0
  | some t => extract_rating t

/-- One iteration of the card loop: `None` when `data-asin` is missing or
empty (`if not asin: continue`), or when the strict-mode rating read raises
(`except` at `scrape.py:209-211` skips the card); `i` is the 0-based index in
the visited slice, giving `position = i + 1`.  The title, link and price
reads all go through `.first` and cannot raise this way. -/
def buildProduct (i : Nat) (c : Card) : Option Product :=
  match c.asin with
  | none => none
  | some a =>
      if a == "" then none
      else
        match cardRatingText c with
        | none => none
        | some rt =>
            some { asin := a, title := cardTitle c, link := cardLink c,
                   price := cardPrice c,
                   rating := extract_rating_opt rt,
                   position := i + 1 }

/-- A visited card yields a Product exactly when its ASIN is usable and its
rating locator matches at most one element. -/
def cardBuilt (c : Card) : Bool :=
  !falsyStr c.asin && decide (c.ratingCount < 2)

/-- `AmazonReviewsScraper.search_products`: choose the first result-container
selector with a match, slice its cards to `max_products`
(`product_cards[:max_products]`), and build a product from each card that has
a usable ASIN.  Navigation, logging and screenshots are not modelled; the
timeout handler returns `[]` before any card is visited and is outside this
model. -/
def search_products (pg : SearchPage) (max_products : Nat) : List Product :=
  match firstMatchingSelector pg.selCount search_result_selectors with
  | none => []
  | some sel =>
      (((pg.cards sel).take max_products).enum).filterMap
        (fun ic => buildProduct ic.1 ic.2)

/-! ### Review extraction (`_extract_reviews_from_page`) -/

/-- A harvested review (`Review` dataclass). -/
structure Review where
  product_id : String
  product_title : String
  reviewer : String
  rating : ℚ
  date : String
  verified_purchase : Bool
  content : String
  helpful_votes : Nat
deriving DecidableEq

/-- One matched review element: per-field match counts and nullable texts. -/
structure ReviewElem where
  reviewerCount : Nat
  reviewerText : Option String
  ratingCount : Nat
  ratingText : Option String
  dateCount : Nat
  dateText : Option String
  contentCount : Nat
  contentText : Option String
  verifiedCount : Nat
  helpfulCount : Nat
  helpfulText : Option String
deriving DecidableEq

/-- A review page: its URL, per-selector counts (used by `scrape_reviews`) and
per-selector matched elements (used by `_extract_reviews_from_page`). -/
structure ReviewPage where
  url : String
  selCount : String → Nat
  elems : String → List ReviewElem

/-- `"signin" in url.lower() or "ap/signin" in url`. -/
def signinRedirect (url : String) : Bool :=
  containsStr (lowerStr url) "signin" || containsStr url "ap/signin"

/-- Review-container candidates checked by `scrape_reviews`. -/
def review_selectors_scrape : List String :=
  ["[data-hook=\"review\"]", "div.review", "[id*=\"customer_review\"]"]

/-- Review-container candidates used by `_extract_reviews_from_page`. -/
def review_selectors_extract : List String :=
  ["[data-hook=\"review\"]", "div[id*=\"customer_review\"]", ".review",
   "div.a-section.review"]

/-- `for selector in ...: review_elements = all(selector); if review_elements:
break` — the elements of the first candidate with a non-empty match list
(`[]` when every candidate is empty). -/
def firstNonEmptyElems (els : String → List ReviewElem) : List String → List ReviewElem
  | [] => []
  | s :: rest => if !(els s).isEmpty then els s else firstNonEmptyElems els rest

/-- `_extract_rating_from_stars` on a nullable text. -/
def extract_rating_from_stars_opt (s : Option String) : ℚ :=
  match s with
  | none => 0
  | some t => extract_rating_from_stars t

/-- `_clean_date` on a nullable text. -/
def clean_date_opt (s : Option String) : String :=
  match s with
  | none => ""
  | some t => clean_date t

/-- `_extract_helpful_votes` on a nullable text. -/
def extract_helpful_votes_opt (s : Option String) : Nat :=
  match s with
  | none => 0
  | some t => extract_helpful_votes t

/-- The per-element body of the review loop.  Each field is resolved
independently with its own default when the field's selector has no match.
Two raise paths end in the per-review `except` (`scrape.py:372-374`), which
skips that one review — hence `none`:
* every per-field `text_content` read is on a locator without `.first`
  (`scrape.py:333-356`), so in Playwright strict mode a field locator matching
  two or more elements raises (the verified-purchase field only calls
  `count()` and cannot raise this way);
* a null `text_content` on a matched reviewer or content element makes
  `reviewer.strip()` / `content.strip()` raise `AttributeError`. -/
def extractReviewElem (asin product_title : String) (e : ReviewElem) : Option Review :=
  if 2 ≤ e.reviewerCount ∨ 2 ≤ e.ratingCount ∨ 2 ≤ e.dateCount
      ∨ 2 ≤ e.contentCount ∨ 2 ≤ e.helpfulCount then none
  else
  let reviewer : Option String :=
    if e.reviewerCount > 0 then e.reviewerText else some "Anonymous"
  let rating_text : Option String :=
    if e.ratingCount > 0 then e.ratingText else some ""
  let rating := extract_rating_from_stars_opt rating_text
  let date_text : Option String :=
    if e.dateCount > 0 then e.dateText else some ""
  let date := clean_date_opt date_text
  let content : Option String :=
    if e.contentCount > 0 then e.contentText else some ""
  let verified := decide (e.verifiedCount > 0)
  let helpful_text : Option String :=
    if e.helpfulCount > 0 then e.helpfulText else some ""
  let helpful_votes := extract_helpful_votes_opt helpful_text
  match reviewer, content with
  | some r, some c =>
      some { product_id := asin, product_title := product_title,
             reviewer := stripStr r, rating := rating, date := date,
             verified_purchase := verified, content := stripStr c,
             helpful_votes := helpful_votes }
  | _, _ => none

/-- `AmazonReviewsScraper._extract_reviews_from_page`: empty on an
authentication redirect, otherwise every successfully built review of the
first non-empty review-container candidate, in element order.  The
"no reviews" diagnostics do not affect the returned list. -/
def extract_reviews_from_page (asin product_title : String) (p : ReviewPage) : List Review :=
  if signinRedirect p.url then []
  else
    (firstNonEmptyElems p.elems review_selectors_extract).filterMap
      (extractReviewElem asin product_title)

/-! ### Review harvesting (`scrape_reviews`)

`pages n` models the review page reached by navigating to
`/product-reviews/asin/?pageNumber=n` (with the optional star filter in the
URL).  The harvester also returns the list of page numbers it requested, so
that "page N was never fetched" is a statable property.  Timeout and error
handlers `break` exactly like the no-container branch and carry no extra
behaviour to model. -/

/-- The body of `for page_num in range(1, max_pages + 1)`. -/
def scrapeGo (asin product_title : String) (pages : Nat → ReviewPage) :
    List Nat → List Review × List Nat
  | [] => ([], [])
  | n :: rest =>
      match firstMatchingSelector (pages n).selCount review_selectors_scrape with
      | none => ([], [n])
      | some _ =>
          let pr := extract_reviews_from_page asin product_title (pages n)
          let (rs, qs) := scrapeGo asin product_title pages rest
          (pr ++ rs, n :: qs)

/-- `AmazonReviewsScraper.scrape_reviews` for one product: reviews collected
and pages requested. -/
def scrape_reviews (asin product_title : String) (pages : Nat → ReviewPage)
    (max_pages : Nat) : List Review × List Nat :=
  scrapeGo asin product_title pages (List.range' 1 max_pages)

/-! ### Concrete page fixtures used to instantiate the theorems -/

/-- A review element none of whose field selectors match. -/
def elem0 : ReviewElem :=
  { reviewerCount := 0, reviewerText := none, ratingCount := 0,
    ratingText := none, dateCount := 0, dateText := none, contentCount := 0,
    contentText := none, verifiedCount := 0, helpfulCount := 0,
    helpfulText := none }

/-- The review `elem0` yields: every field at its default. -/
def review0 : Review :=
  { product_id := "A1", product_title := "T", reviewer := "Anonymous",
    rating := 0, date := "", verified_purchase := false, content := "",
    helpful_votes := 0 }

/-- A review page with three matching review containers. -/
def pageFull : ReviewPage :=
  { url := "https://www.amazon.com/product-reviews/A1/?pageNumber=1",
    selCount := fun s => if s == "[data-hook=\"review\"]" then 3 else 0,
    elems := fun s => if s == "[data-hook=\"review\"]" then [elem0, elem0, elem0] else [] }

/-- A review page with no matching review container. -/
def pageEmpty : ReviewPage :=
  { url := "https://www.amazon.com/product-reviews/A1/?pageNumber=2",
    selCount := fun _ => 0, elems := fun _ => [] }

/-- Page 1 full, every later page empty. -/
def pagesW2 : Nat → ReviewPage := fun n => if n = 1 then pageFull else pageEmpty

/-- A sign-in redirect page on which a review-container candidate still
matches. -/
def pageSigninTrap : ReviewPage :=
  { url := "https://www.amazon.com/ap/signin?return",
    selCount := fun s => if s == "div.review" then 1 else 0,
    elems := fun _ => [] }

/-- An ordinary review page with one matching review container. -/
def pageNormal : ReviewPage :=
  { url := "https://www.amazon.com/product-reviews/A1/?pageNumber=2",
    selCount := fun s => if s == "div.review" then 1 else 0,
    elems := fun s => if s == ".review" then [elem0] else [] }

/-- Page 1 is a sign-in redirect that still matches a container; page 2 is
ordinary. -/
def pagesW5 : Nat → ReviewPage := fun n => if n = 1 then pageSigninTrap else pageNormal

/-- A sign-in redirect page matching no review container. -/
def pageSigninEmpty : ReviewPage :=
  { url := "https://www.amazon.com/ap/signin?return",
    selCount := fun _ => 0, elems := fun _ => [] }

/-- Page 1 full, page 2 a container-less sign-in redirect. -/
def pagesW5b : Nat → ReviewPage := fun n => if n = 1 then pageFull else pageSigninEmpty

/-- A review element whose rating text asserts more than five stars. -/
def elemHighRating : ReviewElem :=
  { elem0 with ratingCount := 1, ratingText := some "9 out of 5 stars" }

/-- A page with a single review whose rating text exceeds five stars. -/
def pageHighRating : ReviewPage :=
  { url := "https://www.amazon.com/product-reviews/A1/?pageNumber=1",
    selCount := fun s => if s == "[data-hook=\"review\"]" then 1 else 0,
    elems := fun s => if s == "[data-hook=\"review\"]" then [elemHighRating] else [] }

/-- A result card carrying ASIN `a` and nothing else. -/
def cardOk (a : String) : Card :=
  { asin := some a, titleCount := fun _ => 0, titleText := fun _ => none,
    linkCount := 0, linkHref := none, priceCount := 0, priceText := none,
    ratingCount := 0, ratingAria := none, ratingTextC := none }

/-- A review element whose reviewer locator matches two elements (strict-mode
raise on the `text_content` read). -/
def elemTwoReviewers : ReviewElem :=
  { elem0 with reviewerCount := 2, reviewerText := some "A" }

/-- A card with a usable ASIN whose rating locator matches two elements
(strict-mode raise on the rating read). -/
def cardTwoRatings : Card :=
  { asin := some "B009", titleCount := fun _ => 0, titleText := fun _ => none,
    linkCount := 0, linkHref := none, priceCount := 0, priceText := none,
    ratingCount := 2, ratingAria := some "4.0 out of 5 stars",
    ratingTextC := some "4.0 out of 5 stars" }

/-- A result card whose `data-asin` attribute is missing. -/
def cardNoAsin : Card :=
  { asin := none, titleCount := fun _ => 0, titleText := fun _ => none,
    linkCount := 0, linkHref := none, priceCount := 0, priceText := none,
    ratingCount := 0, ratingAria := none, ratingTextC := none }

/-- Five matched containers, the second of which is missing its ASIN. -/
def cardsC : List Card :=
  [cardOk "B001", cardNoAsin, cardOk "B003", cardOk "B004", cardOk "B005"]

/-- A search page whose first container candidate matches `cardsC`. -/
def searchPageC : SearchPage :=
  { selCount := fun s => if s == "[data-component-type=\"s-search-result\"]" then 5 else 0,
    cards := fun s => if s == "[data-component-type=\"s-search-result\"]" then cardsC else [] }

/-- A search page with five well-formed containers. -/
def searchPageG : SearchPage :=
  { selCount := fun s => if s == "[data-component-type=\"s-search-result\"]" then 5 else 0,
    cards := fun s =>
      if s == "[data-component-type=\"s-search-result\"]" then
        [cardOk "B1", cardOk "B2", cardOk "B3", cardOk "B4", cardOk "B5"]
      else [] }

/-! ### The automated-login automaton (`cookie_extractor.automated_login`)

The world structure records, for the successive page states the straight-line
code observes, what each `is_visible` / `text_content` query would return.
`debug_page_state` (screenshots and whole-page diagnostics) and
`wait_for_timeout` pacing carry no data flow and are not modelled; the
per-selector `try/except: continue` wrappers are pure fall-through here.  The
function returns the distinct terminal it reached (the source signals each by
a distinct log line before `return`) together with the trace of page
interactions performed (navigation, click, clear, fill, text read). -/

/-- A page interaction performed by `automated_login`. -/
inductive LAct where
  | nav (url : String)
  | click (sel : String)
  | clear (sel : String)
  | fill (sel : String) (value : String)
  | readText (sel : String)
deriving DecidableEq

/-- The observable page behaviour across the login flow. -/
structure LoginWorld where
  homeTitle : String
  signInVis : String → Bool
  urlAtAuth : String
  emailVis : String → Bool
  contVis : String → Bool
  passVis : String → Bool
  submitVis : String → Bool
  captchaVis : String → Bool
  mfaVis : String → Bool
  errVis : String → Bool
  errText : String → Option String
  acctVis : String → Bool
  acctText : String → Option String

/-- Terminal states of the automaton, one per distinct `return` site. -/
inductive LoginOutcome where
  | homepageError
  | notOnSignIn
  | noEmailField
  | noContinueBtn
  | noPasswordField
  | noSubmitBtn
  | captchaRequired
  | mfaRequired
  | errorDetected
  | success
  | unclear
deriving DecidableEq

/-- The boolean the Python function returns for each terminal. -/
def LoginOutcome.toBool : LoginOutcome → Bool
  | LoginOutcome.success => true
  | _ => false

def sign_in_selectors : List String :=
  ["#nav-link-accountList", "a[href*=\x27signin\x27]", "#nav-signin-tooltip a",
   ".nav-signin-tooltip a"]

def email_selectors : List String :=
  ["#ap_email", "input[name=\x27email\x27]", "input[type=\x27email\x27]",
   "#ap_email_login"]

def continue_selectors : List String :=
  ["#continue", "input[id=\x27continue\x27]", "button[type=\x27submit\x27]"]

def password_selectors : List String :=
  ["#ap_password", "input[name=\x27password\x27]", "input[type=\x27password\x27]"]

def signin_btn_selectors : List String :=
  ["#signInSubmit", "input[id=\x27signInSubmit\x27]", "button[type=\x27submit\x27]",
   "#auth-signin-button"]

def captcha_selectors : List String :=
  ["#auth-captcha-image", "[name=\x27cvf_captcha_input\x27]", ".cvf-captcha-img",
   "#captchacharacters"]

def twofa_selectors : List String :=
  ["#auth-mfa-form", "[name=\x27otpCode\x27]", "#auth-mfa-otpcode",
   ".cvf-challenge-form"]

def error_selectors : List String :=
  [".a-alert-error", "#auth-error-message-box", ".auth-error-message"]

def account_selectors : List String :=
  ["#nav-link-accountList-nav-line-1", "#nav-link-accountList span", ".nav-line-1"]

/-- The direct sign-in URL used by the fallback navigation. -/
def signin_direct_url : String :=
  "https://www.amazon.com/ap/signin?openid.pape.max_auth_age=0&openid.return_to=https%3A%2F%2Fwww.amazon.com%2F&openid.identity=http%3A%2F%2Fspecs.openid.net%2Fauth%2F2.0%2Fidentifier_select&openid.assoc_handle=usflex&openid.mode=checkid_setup&openid.claimed_id=http%3A%2F%2Fspecs.openid.net%2Fauth%2F2.0%2Fidentifier_select&openid.ns=http%3A%2F%2Fspecs.openid.net%2Fauth%2F2.0&"

/-- The first-visible-selector loop shared by every interaction step. -/
def findVisible (vis : String → Bool) : List String → Option String
  | [] => none
  | s :: rest => if vis s then some s else findVisible vis rest

/-- `"sorry" in page_title.lower() or "error" in page_title.lower()`. -/
def badHomeTitle (t : String) : Bool :=
  containsStr (lowerStr t) "sorry" || containsStr (lowerStr t) "error"

/-- `if account_text and ("Hello" in account_text or "Hi" in account_text)`. -/
def accountOk (txt : Option String) : Bool :=
  match txt with
  | none => false
  | some t => !(t == "") && (containsStr t "Hello" || containsStr t "Hi")

/-- The final verification loop over `account_selectors`: read the text of
each visible candidate, succeeding on a greeting marker, else fall through to
`unclear`. -/
def loginAccountLoop (w : LoginWorld) (tr : List LAct) :
    List String → LoginOutcome × List LAct
  | [] => (LoginOutcome.unclear, tr)
  | s :: rest =>
      if w.acctVis s then
        let tr2 := tr ++ [LAct.readText s]
        if accountOk (w.acctText s) then (LoginOutcome.success, tr2)
        else loginAccountLoop w tr2 rest
      else loginAccountLoop w tr rest

/-- `cookie_extractor.automated_login` as a straight-line function of the
observed world.  The Python function returns `outcome.toBool`. -/
def automated_login (w : LoginWorld) (email password : String) :
    LoginOutcome × List LAct :=
  let t0 : List LAct := [LAct.nav "https://www.amazon.com"]
  if badHomeTitle w.homeTitle then (LoginOutcome.homepageError, t0)
  else
    let t1 : List LAct :=
      match findVisible w.signInVis sign_in_selectors with
      | some s => t0 ++ [LAct.click s]
      | none => t0 ++ [LAct.nav signin_direct_url]
    if !(containsStr w.urlAtAuth "signin" || containsStr w.urlAtAuth "ap/") then
      (LoginOutcome.notOnSignIn, t1)
    else
      match findVisible w.emailVis email_selectors with
      | none => (LoginOutcome.noEmailField, t1)
      | some es =>
          let t2 := t1 ++ [LAct.clear es, LAct.fill es email]
          match findVisible w.contVis continue_selectors with
          | none => (LoginOutcome.noContinueBtn, t2)
          | some cb =>
              let t3 := t2 ++ [LAct.click cb]
              match findVisible w.passVis password_selectors with
              | none => (LoginOutcome.noPasswordField, t3)
              | some ps =>
                  let t4 := t3 ++ [LAct.clear ps, LAct.fill ps password]
                  match findVisible w.submitVis signin_btn_selectors with
                  | none => (LoginOutcome.noSubmitBtn, t4)
                  | some sb =>
                      let t5 := t4 ++ [LAct.click sb]
                      if (findVisible w.captchaVis captcha_selectors).isSome then
                        (LoginOutcome.captchaRequired, t5)
                      else if (findVisible w.mfaVis twofa_selectors).isSome then
                        (LoginOutcome.mfaRequired, t5)
                      else
                        match findVisible w.errVis error_selectors with
                        | some er => (LoginOutcome.errorDetected, t5 ++ [LAct.readText er])
                        | none =>
                            let t6 := t5 ++ [LAct.nav "https://www.amazon.com"]
                            loginAccountLoop w t6 account_selectors

/-- The interaction trace `automated_login` has produced by the time it
reaches the post-submit challenge checks, when the sign-in link `s0`, email
field `es`, continue button `cb`, password field `ps` and submit button `sb`
were each the first visible candidate of their step. -/
def loginBaseTrace (s0 es cb ps sb email password : String) : List LAct :=
  [LAct.nav "https://www.amazon.com", LAct.click s0, LAct.clear es,
   LAct.fill es email, LAct.click cb, LAct.clear ps, LAct.fill ps password,
   LAct.click sb]

/-- A world in which every login step finds its first candidate and a CAPTCHA
challenge is visible after submission. -/
def worldCaptcha : LoginWorld :=
  { homeTitle := "Amazon.com. Spend less. Smile more.",
    signInVis := fun s => s == "#nav-link-accountList",
    urlAtAuth := "https://www.amazon.com/ap/signin?x",
    emailVis := fun s => s == "#ap_email",
    contVis := fun s => s == "#continue",
    passVis := fun s => s == "#ap_password",
    submitVis := fun s => s == "#signInSubmit",
    captchaVis := fun s => s == "#auth-captcha-image",
    mfaVis := fun s => s == "#auth-mfa-form",
    errVis := fun _ => false,
    errText := fun _ => none,
    acctVis := fun _ => false,
    acctText := fun _ => none }

/-! ## Helper lemmas -/

theorem findVisible_mem (vis : String → Bool) :
    ∀ (l : List String) (s : String), findVisible vis l = some s → s ∈ l := by
  intro l
  induction l with
  | nil => intro s h; simp [findVisible] at h
  | cons a as ih =>
      intro s h
      by_cases ha : vis a
      · simp [findVisible, ha] at h
        simp [h]
      · simp [findVisible, ha] at h
        exact List.mem_cons_of_mem a (ih s h)

theorem firstMatchingSelector_first (count : String → Nat) :
    ∀ (pre : List String) (s : String) (post : List String),
      (∀ x ∈ pre, count x = 0) → count s > 0 →
      firstMatchingSelector count (pre ++ s :: post) = some s := by
  intro pre
  induction pre with
  | nil => intro s post _ hs; simp [firstMatchingSelector, hs]
  | cons a as ih =>
      intro s post hpre hs
      have ha : count a = 0 := hpre a (by simp)
      simp only [List.cons_append, firstMatchingSelector, ha]
      simp only [Nat.lt_irrefl, if_false]
      exact ih s post (fun x hx => hpre x (by simp [hx])) hs

theorem resolveTitleLoop_first (c : Card) :
    ∀ (pre : List String) (ts : String) (post : List String),
      (∀ x ∈ pre, c.titleCount x = 0) → c.titleCount ts > 0 →
      resolveTitleLoop c (pre ++ ts :: post) = c.titleText ts := by
  intro pre
  induction pre with
  | nil => intro ts post _ hs; simp [resolveTitleLoop, hs]
  | cons a as ih =>
      intro ts post hpre hs
      have ha : c.titleCount a = 0 := hpre a (by simp)
      simp only [List.cons_append, resolveTitleLoop, ha]
      simp only [Nat.lt_irrefl, if_false]
      exact ih ts post (fun x hx => hpre x (by simp [hx])) hs

theorem firstNonEmptyElems_first (els : String → List ReviewElem) :
    ∀ (pre : List String) (s : String) (post : List String),
      (∀ x ∈ pre, els x = []) → els s ≠ [] →
      firstNonEmptyElems els (pre ++ s :: post) = els s := by
  intro pre
  induction pre with
  | nil =>
      intro s post _ hs
      simp [firstNonEmptyElems, List.isEmpty_iff, hs]
  | cons a as ih =>
      intro s post hpre hs
      have ha : els a = [] := hpre a (by simp)
      simp only [List.cons_append, firstNonEmptyElems, ha]
      simp only [List.isEmpty_nil, Bool.not_true, Bool.false_eq_true, if_false]
      exact ih s post (fun x hx => hpre x (by simp [hx])) hs

theorem scrapeGo_split (asin title : String) (pages : Nat → ReviewPage) :
    ∀ (pre : List Nat) (n : Nat) (post : List Nat),
      (∀ m ∈ pre,
        firstMatchingSelector (pages m).selCount review_selectors_scrape ≠ none) →
      firstMatchingSelector (pages n).selCount review_selectors_scrape = none →
      scrapeGo asin title pages (pre ++ n :: post) =
        ((pre.map (fun m => extract_reviews_from_page asin title (pages m))).flatten,
          pre ++ [n]) := by
  intro pre
  induction pre with
  | nil => intro n post _ hn; simp [scrapeGo, hn]
  | cons a as ih =>
      intro n post hpre hn
      obtain ⟨sa, hsa⟩ := Option.ne_none_iff_exists'.mp (hpre a (by simp))
      simp only [List.cons_append, scrapeGo, hsa, List.append_eq]
      rw [ih n post (fun m hm => hpre m (by simp [hm])) hn]
      simp

theorem scrape_stops (asin title : String) (pages : Nat → ReviewPage)
    (max_pages N : Nat) (h1 : 1 ≤ N) (h2 : N ≤ max_pages)
    (hmatch : ∀ m, 1 ≤ m → m < N →
      firstMatchingSelector (pages m).selCount review_selectors_scrape ≠ none)
    (hstop : firstMatchingSelector (pages N).selCount review_selectors_scrape = none) :
    scrape_reviews asin title pages max_pages =
      (((List.range' 1 (N - 1)).map
          (fun m => extract_reviews_from_page asin title (pages m))).flatten,
        List.range' 1 N) := by
  have hsplit : List.range' 1 max_pages
      = List.range' 1 (N - 1) ++ N :: List.range' (N + 1) (max_pages - N) := by
    have e1 := List.range'_append_1 1 (N - 1) ((max_pages - N) + 1)
    have hM : (max_pages - N + 1) + (N - 1) = max_pages := by omega
    have hN : 1 + (N - 1) = N := by omega
    rw [hM, hN] at e1
    rw [← e1, List.range'_succ]
  have hend : List.range' 1 (N - 1) ++ [N] = List.range' 1 N := by
    have e1 := List.range'_append_1 1 (N - 1) 1
    have hN : 1 + (N - 1) = N := by omega
    rw [hN] at e1
    rw [List.range'_one] at e1
    exact e1
  rw [scrape_reviews, hsplit,
    scrapeGo_split asin title pages (List.range' 1 (N - 1)) N
      (List.range' (N + 1) (max_pages - N))
      (fun m hm => by
        rw [List.mem_range'_1] at hm
        exact hmatch m hm.1 (by omega))
      hstop,
    hend]

theorem buildProduct_strict_skip (i : Nat) (c : Card) (h : 2 ≤ c.ratingCount) :
    buildProduct i c = none := by
  rw [buildProduct]
  cases hc : c.asin with
  | none => rfl
  | some a =>
      by_cases ha : a == ""
      · simp [ha]
      · simp only [ha, Bool.false_eq_true, if_false]
        rw [cardRatingText, if_pos h]

theorem buildProduct_cases (i : Nat) (c : Card) :
    (cardBuilt c = false ∧ buildProduct i c = none)
    ∨ (cardBuilt c = true
        ∧ ∃ p, buildProduct i c = some p ∧ p.position = i + 1) := by
  cases hc : c.asin with
  | none =>
      exact Or.inl ⟨by simp [cardBuilt, falsyStr, hc], by rw [buildProduct, hc]⟩
  | some a =>
      by_cases ha : a == ""
      · exact Or.inl ⟨by simp [cardBuilt, falsyStr, hc, ha],
          by rw [buildProduct, hc]; simp [ha]⟩
      · by_cases hr : 2 ≤ c.ratingCount
        · refine Or.inl ⟨?_, buildProduct_strict_skip i c hr⟩
          simp [cardBuilt, falsyStr, hc, ha]
          omega
        · refine Or.inr ⟨?_, ?_⟩
          · simp [cardBuilt, falsyStr, hc, ha]
            omega
          · exact ⟨{ asin := a, title := cardTitle c, link := cardLink c,
                     price := cardPrice c,
                     rating := extract_rating_opt (cardRatingTextVal c),
                     position := i + 1 },
                   by
                     rw [buildProduct, hc]
                     simp only [ha, Bool.false_eq_true, if_false]
                     rw [cardRatingText, if_neg hr],
                   rfl⟩

theorem enumFrom_filterMap_buildProduct (l : List Card) : ∀ i0 : Nat,
    ((List.enumFrom i0 l).filterMap (fun ic => buildProduct ic.1 ic.2)).map Product.position
      = ((List.enumFrom i0 l).filter (fun ic => cardBuilt ic.2)).map (fun ic => ic.1 + 1)
    ∧ ((List.enumFrom i0 l).filterMap (fun ic => buildProduct ic.1 ic.2)).length
      = (l.filter (fun c => cardBuilt c)).length := by
  induction l with
  | nil => intro i0; simp
  | cons c cs ih =>
      intro i0
      rw [List.enumFrom_cons]
      rcases buildProduct_cases i0 c with ⟨hf, hb⟩ | ⟨hf, p, hb, hp⟩
      · constructor
        · simp only [List.filterMap_cons, hb, List.filter_cons, hf]
          simpa using (ih (i0 + 1)).1
        · simp only [List.filterMap_cons, hb, List.filter_cons, hf]
          simpa using (ih (i0 + 1)).2
      · constructor
        · simp only [List.filterMap_cons, hb, List.filter_cons, hf]
          simp only [Bool.not_false, if_pos]
          rw [List.map_cons, List.map_cons, hp]
          exact congrArg _ (ih (i0 + 1)).1
        · simp only [List.filterMap_cons, hb, List.filter_cons, hf]
          simp only [Bool.not_false, if_pos]
          rw [List.length_cons, List.length_cons]
          exact congrArg _ (ih (i0 + 1)).2

theorem mem_of_mem_enumFrom {α : Type} (l : List α) :
    ∀ (i0 : Nat) (p : Nat × α), p ∈ List.enumFrom i0 l → p.2 ∈ l := by
  induction l with
  | nil => intro i0 p h; simp at h
  | cons a as ih =>
      intro i0 p h
      rw [List.enumFrom_cons] at h
      rcases List.mem_cons.mp h with h | h
      · rw [h]; exact List.mem_cons_self a as
      · exact List.mem_cons_of_mem a (ih (i0 + 1) p h)

theorem map_fst_succ_enumFrom {α : Type} (l : List α) : ∀ i0 : Nat,
    (List.enumFrom i0 l).map (fun ic => ic.1 + 1) = List.range' (i0 + 1) l.length := by
  induction l with
  | nil => intro i0; simp
  | cons a as ih =>
      intro i0
      rw [List.enumFrom_cons, List.map_cons, ih (i0 + 1), List.length_cons,
        List.range'_succ]

theorem mkRat_natCast_nonneg (n d : Nat) : 0 ≤ mkRat (n : Int) d := by
  rw [Rat.mkRat_eq_div]
  positivity

set_option maxHeartbeats 1000000 in
theorem ratOfGroup_nonneg (g : List Char) : 0 ≤ ratOfGroup g := by
  simp only [ratOfGroup]
  split
  · rw [Rat.mkRat_eq_div]; positivity
  · rw [Rat.mkRat_eq_div]; positivity

theorem extract_rating_from_stars_nonneg (s : String) :
    0 ≤ extract_rating_from_stars s := by
  rw [extract_rating_from_stars]
  split
  · norm_num
  · split
    · exact ratOfGroup_nonneg _
    · split
      · exact ratOfGroup_nonneg _
      · norm_num

theorem extract_rating_from_stars_opt_nonneg (s : Option String) :
    0 ≤ extract_rating_from_stars_opt s := by
  cases s with
  | none => norm_num [extract_rating_from_stars_opt]
  | some t => exact extract_rating_from_stars_nonneg t

theorem extractReviewElem_rating (asin title : String) (e : ReviewElem)
    (r : Review) (h : extractReviewElem asin title e = some r) :
    r.rating = extract_rating_from_stars_opt
      (if e.ratingCount > 0 then e.ratingText else some "") := by
  rw [extractReviewElem] at h
  by_cases hg : 2 ≤ e.reviewerCount ∨ 2 ≤ e.ratingCount ∨ 2 ≤ e.dateCount
      ∨ 2 ≤ e.contentCount ∨ 2 ≤ e.helpfulCount
  · rw [if_pos hg] at h
    cases h
  · rw [if_neg hg] at h
    simp only [] at h
    rcases h1 : (if e.reviewerCount > 0 then e.reviewerText else some "Anonymous") with
      _ | tr <;>
      rcases h2 : (if e.contentCount > 0 then e.contentText else some "") with _ | tc <;>
        rw [h1, h2] at h <;> simp only [] at h
    · cases h
    · cases h
    · cases h
    · rw [← Option.some.inj h]

theorem dropWhile_idem_space (l : List Char) :
    (l.dropWhile pyIsSpace).dropWhile pyIsSpace = l.dropWhile pyIsSpace := by
  induction l with
  | nil => rfl
  | cons a as ih =>
      by_cases hp : pyIsSpace a
      · simp [List.dropWhile_cons, hp, ih]
      · simp [List.dropWhile_cons, hp]

theorem head_dropWhile_space (l : List Char) (c : Char) (cs : List Char)
    (h : l.dropWhile pyIsSpace = c :: cs) : pyIsSpace c = false := by
  induction l with
  | nil => simp [List.dropWhile] at h
  | cons a as ih =>
      rw [List.dropWhile_cons] at h
      by_cases hp : pyIsSpace a
      · rw [if_pos hp] at h; exact ih h
      · rw [if_neg hp] at h
        cases h
        exact Bool.not_eq_true _ ▸ eq_false_of_ne_true hp

theorem dropWhile_eq_self_space (l : List Char)
    (h : ∀ c cs, l = c :: cs → pyIsSpace c = false) :
    l.dropWhile pyIsSpace = l := by
  cases l with
  | nil => rfl
  | cons a as => simp [List.dropWhile_cons, h a as rfl]

theorem getLast?_dropWhile_space (l : List Char)
    (h : l.dropWhile pyIsSpace ≠ []) :
    (l.dropWhile pyIsSpace).getLast? = l.getLast? := by
  induction l with
  | nil => simp [List.dropWhile] at h
  | cons a as ih =>
      by_cases hp : pyIsSpace a
      · rw [List.dropWhile_cons, if_pos hp] at h ⊢
        have has : as ≠ [] := by
          intro he; rw [he] at h; simp [List.dropWhile] at h
        obtain ⟨b, bs, rfl⟩ := List.exists_cons_of_ne_nil has
        rw [List.getLast?_cons_cons]
        exact ih h
      · rw [List.dropWhile_cons, if_neg hp]

theorem stripL_dropWhile (l : List Char) :
    (stripL l).dropWhile pyIsSpace = stripL l := by
  apply dropWhile_eq_self_space
  intro c cs h
  have hh : (stripL l).head? = some c := by rw [h]; rfl
  rw [stripL, List.head?_reverse] at hh
  by_cases hb : ((l.dropWhile pyIsSpace).reverse.dropWhile pyIsSpace) = []
  · rw [hb] at hh; simp at hh
  · rw [getLast?_dropWhile_space _ hb, List.getLast?_reverse] at hh
    obtain ⟨d, ds, hd⟩ :
        ∃ d ds, l.dropWhile pyIsSpace = d :: ds := by
      cases hld : l.dropWhile pyIsSpace with
      | nil =>
          rw [hld] at hb
          simp at hb
      | cons d ds => exact ⟨d, ds, rfl⟩
    rw [hd] at hh
    simp only [List.head?_cons, Option.some.injEq] at hh
    exact hh ▸ head_dropWhile_space l d ds hd

theorem stripL_idem (l : List Char) : stripL (stripL l) = stripL l := by
  have h1 : (stripL l).dropWhile pyIsSpace = stripL l := stripL_dropWhile l
  have h2 : (stripL l).reverse
      = (l.dropWhile pyIsSpace).reverse.dropWhile pyIsSpace := by
    rw [stripL, List.reverse_reverse]
  rw [stripL, h1, h2, dropWhile_idem_space]
  rfl

theorem stripStr_idem (s : String) : stripStr (stripStr s) = stripStr s := by
  show (⟨stripL (stripL s.data)⟩ : String) = ⟨stripL s.data⟩
  rw [stripL_idem]

theorem subReviewed_of_not_contains (l : List Char)
    (h : containsSub "Reviewed in".data l = false) : subReviewed l = l := by
  induction l with
  | nil => rfl
  | cons a as ih =>
      rw [containsSub, Bool.or_eq_false_iff] at h
      have hra : reviewedAt (a :: as) = none := by simp [reviewedAt, h.1]
      show subGo (a :: as) 0 = a :: as
      simp only [subGo, hra]
      exact congrArg (a :: ·) (ih h.2)

/-! ## Claim theorems -/

/-- Claim C1: every selector-fallback resolution loop — the result-container
selector loop and per-field title-selector loop of product discovery, and the
review-selector loop of review extraction — returns the value associated with
the first candidate (in declared order) that matches at least one element; the
candidates after an accepted one are irrelevant, even if they would match. -/
theorem c1_selector_fallback_first_match_wins :
    (∀ (count : String → Nat) (pre : List String) (s : String) (post post' : List String),
        (∀ x ∈ pre, count x = 0) → count s > 0 →
        firstMatchingSelector count (pre ++ s :: post) = some s
          ∧ firstMatchingSelector count (pre ++ s :: post)
              = firstMatchingSelector count (pre ++ s :: post'))
    ∧ (∀ (c : Card) (pre : List String) (ts : String) (post post' : List String),
        (∀ x ∈ pre, c.titleCount x = 0) → c.titleCount ts > 0 →
        resolveTitleLoop c (pre ++ ts :: post) = c.titleText ts
          ∧ resolveTitleLoop c (pre ++ ts :: post)
              = resolveTitleLoop c (pre ++ ts :: post'))
    ∧ (∀ (els : String → List ReviewElem) (pre : List String) (s : String)
          (post post' : List String),
        (∀ x ∈ pre, els x = []) → els s ≠ [] →
        firstNonEmptyElems els (pre ++ s :: post) = els s
          ∧ firstNonEmptyElems els (pre ++ s :: post)
              = firstNonEmptyElems els (pre ++ s :: post')) := by
  refine ⟨?_, ?_, ?_⟩
  · intro count pre s post post' hpre hs
    exact ⟨firstMatchingSelector_first count pre s post hpre hs,
      (firstMatchingSelector_first count pre s post hpre hs).trans
        (firstMatchingSelector_first count pre s post' hpre hs).symm⟩
  · intro c pre ts post post' hpre hs
    exact ⟨resolveTitleLoop_first c pre ts post hpre hs,
      (resolveTitleLoop_first c pre ts post hpre hs).trans
        (resolveTitleLoop_first c pre ts post' hpre hs).symm⟩
  · intro els pre s post post' hpre hs
    exact ⟨firstNonEmptyElems_first els pre s post hpre hs,
      (firstNonEmptyElems_first els pre s post hpre hs).trans
        (firstNonEmptyElems_first els pre s post' hpre hs).symm⟩

/-- Witness for C1 at concrete inputs where candidates 1 and 3 both match:
the result comes from candidate 1. -/
theorem c1_selector_fallback_first_match_wins_witness :
    firstMatchingSelector (fun s => if s == "A" || s == "C" then 1 else 0)
        (["A", "B", "C"]) = some "A"
    ∧ firstNonEmptyElems
        (fun s => if s == "A" || s == "C" then [elem0] else []) ["A", "B", "C"]
        = [elem0] := by
  have h1 := (c1_selector_fallback_first_match_wins.1
      (fun s => if s == "A" || s == "C" then 1 else 0) [] "A" ["B", "C"] ["B", "C"]
      (by intro x hx; simp at hx) (by decide)).1
  have h2 := (c1_selector_fallback_first_match_wins.2.2
      (fun s => if s == "A" || s == "C" then [elem0] else []) [] "A" ["B", "C"] ["B", "C"]
      (by intro x hx; simp at hx) (by decide)).1
  exact ⟨h1, by simpa using h2⟩

/-- Claim C2: with page budget `max_pages`, if no review-container candidate
matches on page `N ≤ max_pages` while every earlier page had a match, the
harvest requests exactly pages `1..N` and returns exactly the reviews
extracted from pages `1..N-1`; pages `N+1..max_pages` are never requested. -/
theorem c2_harvest_stops_on_containerless_page (asin title : String)
    (pages : Nat → ReviewPage) (max_pages N : Nat)
    (h1 : 1 ≤ N) (h2 : N ≤ max_pages)
    (hmatch : ∀ m, 1 ≤ m → m < N →
      firstMatchingSelector (pages m).selCount review_selectors_scrape ≠ none)
    (hstop : firstMatchingSelector (pages N).selCount review_selectors_scrape = none) :
    scrape_reviews asin title pages max_pages =
      (((List.range' 1 (N - 1)).map
          (fun m => extract_reviews_from_page asin title (pages m))).flatten,
        List.range' 1 N) :=
  scrape_stops asin title pages max_pages N h1 h2 hmatch hstop

/-- Witness for C2 at the spec's concrete scenario: page 1 has 3 matching
review containers, page 2 has none, `max_pages = 3`; exactly the 3 page-1
reviews come back and only pages 1 and 2 are requested. -/
theorem c2_harvest_stops_on_containerless_page_witness :
    scrape_reviews "A1" "T" pagesW2 3 = ([review0, review0, review0], [1, 2]) := by
  have h := c2_harvest_stops_on_containerless_page "A1" "T" pagesW2 3 2
    (by norm_num) (by norm_num)
    (fun m hm1 hm2 => by
      have hm : m = 1 := by omega
      subst hm
      decide)
    (by decide)
  rw [h]
  decide

/-- Claim C5 counterexample: the sign-in-redirect check lives in the per-page
extractor, not the pagination loop.  On a redirect page where a
review-container candidate still matches, the harvester does not abort: it
requests the next page and returns that page's reviews, not just those
collected before the redirect. -/
theorem c5_signin_redirect_counterexample :
    signinRedirect (pagesW5 1).url = true
    ∧ scrape_reviews "A1" "T" pagesW5 2 = ([review0], [1, 2]) := by
  exact ⟨by decide, by decide⟩

/-- Claim C5 (amended): the redirect check is page-local.  A sign-in redirect
makes `_extract_reviews_from_page` contribute no reviews for that page
(partial results from other pages are preserved), and the run is logged, but
pagination aborts only through the container-match check: in the typical case
where the redirect page matches no review-container candidate (and earlier
pages did), the harvest stops there with exactly the earlier pages' reviews
and never requests a later page. -/
theorem c5_signin_redirect_amended :
    (∀ (asin title : String) (p : ReviewPage), signinRedirect p.url = true →
        extract_reviews_from_page asin title p = [])
    ∧ (∀ (asin title : String) (pages : Nat → ReviewPage) (max_pages N : Nat),
        1 ≤ N → N ≤ max_pages →
        (∀ m, 1 ≤ m → m < N →
          firstMatchingSelector (pages m).selCount review_selectors_scrape ≠ none) →
        signinRedirect (pages N).url = true →
        firstMatchingSelector (pages N).selCount review_selectors_scrape = none →
        scrape_reviews asin title pages max_pages =
          (((List.range' 1 (N - 1)).map
              (fun m => extract_reviews_from_page asin title (pages m))).flatten,
            List.range' 1 N)) := by
  constructor
  · intro asin title p h
    rw [extract_reviews_from_page, if_pos h]
  · intro asin title pages max_pages N h1 h2 hmatch _ hstop
    exact scrape_stops asin title pages max_pages N h1 h2 hmatch hstop

/-- Witness for C5 (amended): a concrete redirect page contributes no
reviews, and a harvest whose page 2 is a container-less redirect stops there
with page 1's reviews. -/
theorem c5_signin_redirect_amended_witness :
    extract_reviews_from_page "A1" "T" pageSigninEmpty = []
    ∧ scrape_reviews "A1" "T" pagesW5b 3 = ([review0, review0, review0], [1, 2]) := by
  constructor
  · exact c5_signin_redirect_amended.1 "A1" "T" pageSigninEmpty (by decide)
  · have h := c5_signin_redirect_amended.2 "A1" "T" pagesW5b 3 2
      (by norm_num) (by norm_num)
      (fun m hm1 hm2 => by
        have hm : m = 1 := by omega
        subst hm
        decide)
      (by decide) (by decide)
    rw [h]
    decide

/-- Claim C4: once credentials are submitted, the automaton checks CAPTCHA
candidates, then MFA candidates, then inline error-message candidates, in that
fixed priority order; any match terminates it with the corresponding
manual-intervention terminal (a `false` return), its interaction trace ends at
the submit click (plus one read of the matched error message in the error
case, which is not a CAPTCHA or MFA field), and no CAPTCHA or MFA selector is
ever filled, cleared, clicked, or read. -/
theorem c4_challenge_check_priority_and_no_interaction
    (w : LoginWorld) (email password s0 es cb ps sb : String)
    (h0 : badHomeTitle w.homeTitle = false)
    (hs0 : findVisible w.signInVis sign_in_selectors = some s0)
    (hurl : (containsStr w.urlAtAuth "signin" || containsStr w.urlAtAuth "ap/") = true)
    (he : findVisible w.emailVis email_selectors = some es)
    (hcb : findVisible w.contVis continue_selectors = some cb)
    (hps : findVisible w.passVis password_selectors = some ps)
    (hsb : findVisible w.submitVis signin_btn_selectors = some sb) :
    ((findVisible w.captchaVis captcha_selectors).isSome = true →
        automated_login w email password
          = (LoginOutcome.captchaRequired, loginBaseTrace s0 es cb ps sb email password))
    ∧ (findVisible w.captchaVis captcha_selectors = none →
        (findVisible w.mfaVis twofa_selectors).isSome = true →
        automated_login w email password
          = (LoginOutcome.mfaRequired, loginBaseTrace s0 es cb ps sb email password))
    ∧ (∀ er, findVisible w.captchaVis captcha_selectors = none →
        findVisible w.mfaVis twofa_selectors = none →
        findVisible w.errVis error_selectors = some er →
        automated_login w email password
          = (LoginOutcome.errorDetected,
              loginBaseTrace s0 es cb ps sb email password ++ [LAct.readText er])
          ∧ er ∉ captcha_selectors ∧ er ∉ twofa_selectors)
    ∧ (LoginOutcome.toBool LoginOutcome.captchaRequired = false
        ∧ LoginOutcome.toBool LoginOutcome.mfaRequired = false
        ∧ LoginOutcome.toBool LoginOutcome.errorDetected = false)
    ∧ (∀ sel, sel ∈ captcha_selectors ∨ sel ∈ twofa_selectors →
        (∀ v, LAct.fill sel v ∉ loginBaseTrace s0 es cb ps sb email password)
        ∧ LAct.clear sel ∉ loginBaseTrace s0 es cb ps sb email password
        ∧ LAct.readText sel ∉ loginBaseTrace s0 es cb ps sb email password
        ∧ LAct.click sel ∉ loginBaseTrace s0 es cb ps sb email password) := by
  have hd : ∀ x ∈ captcha_selectors ++ twofa_selectors,
      x ∉ sign_in_selectors ++ email_selectors ++ continue_selectors
            ++ password_selectors ++ signin_btn_selectors ++ error_selectors := by
    decide
  have hs0m : s0 ∈ sign_in_selectors := findVisible_mem _ _ _ hs0
  have hesm : es ∈ email_selectors := findVisible_mem _ _ _ he
  have hcbm : cb ∈ continue_selectors := findVisible_mem _ _ _ hcb
  have hpsm : ps ∈ password_selectors := findVisible_mem _ _ _ hps
  have hsbm : sb ∈ signin_btn_selectors := findVisible_mem _ _ _ hsb
  refine ⟨?_, ?_, ?_, ⟨rfl, rfl, rfl⟩, ?_⟩
  · intro hcap
    simp [automated_login, h0, hs0, hurl, he, hcb, hps, hsb, hcap, loginBaseTrace]
  · intro hcap hmfa
    simp [automated_login, h0, hs0, hurl, he, hcb, hps, hsb, hcap, hmfa, loginBaseTrace]
  · intro er hcap hmfa herr
    have herm : er ∈ error_selectors := findVisible_mem _ _ _ herr
    refine ⟨?_, ?_, ?_⟩
    · simp [automated_login, h0, hs0, hurl, he, hcb, hps, hsb, hcap, hmfa, herr,
        loginBaseTrace]
    · intro hin
      exact hd er (List.mem_append_left _ hin)
        (by simp [List.mem_append, herm])
    · intro hin
      exact hd er (List.mem_append_right _ hin)
        (by simp [List.mem_append, herm])
  · intro sel hsel
    have hselBig : sel ∈ captcha_selectors ++ twofa_selectors := by
      rcases hsel with h | h
      · exact List.mem_append_left _ h
      · exact List.mem_append_right _ h
    have hno := hd sel hselBig
    have hne_s0 : sel ≠ s0 := fun hh =>
      hno (by subst hh; simp [List.mem_append, hs0m])
    have hne_es : sel ≠ es := fun hh =>
      hno (by subst hh; simp [List.mem_append, hesm])
    have hne_cb : sel ≠ cb := fun hh =>
      hno (by subst hh; simp [List.mem_append, hcbm])
    have hne_ps : sel ≠ ps := fun hh =>
      hno (by subst hh; simp [List.mem_append, hpsm])
    have hne_sb : sel ≠ sb := fun hh =>
      hno (by subst hh; simp [List.mem_append, hsbm])
    refine ⟨?_, ?_, ?_, ?_⟩
    · intro v hv
      simp [loginBaseTrace] at hv
      rcases hv with ⟨hh, -⟩ | ⟨hh, -⟩
      · exact hne_es hh
      · exact hne_ps hh
    · intro hv
      simp [loginBaseTrace] at hv
      rcases hv with hh | hh
      · exact hne_es hh
      · exact hne_ps hh
    · intro hv
      simp [loginBaseTrace] at hv
    · intro hv
      simp [loginBaseTrace] at hv
      rcases hv with hh | hh | hh
      · exact hne_s0 hh
      · exact hne_cb hh
      · exact hne_sb hh

/-- Witness for C4: in a concrete world where both a CAPTCHA and an MFA
candidate are visible after submission, the automaton returns the CAPTCHA
terminal (priority), `toBool` is `false`, and its trace stops at the submit
click with no CAPTCHA/MFA interaction. -/
theorem c4_challenge_check_priority_and_no_interaction_witness :
    automated_login worldCaptcha "user@example.com" "pw"
      = (LoginOutcome.captchaRequired,
          loginBaseTrace "#nav-link-accountList" "#ap_email" "#continue"
            "#ap_password" "#signInSubmit" "user@example.com" "pw")
    ∧ LoginOutcome.toBool LoginOutcome.captchaRequired = false
    ∧ (∀ sel, sel ∈ captcha_selectors ∨ sel ∈ twofa_selectors →
        ∀ v, LAct.fill sel v
          ∉ loginBaseTrace "#nav-link-accountList" "#ap_email" "#continue"
              "#ap_password" "#signInSubmit" "user@example.com" "pw") := by
  have h := c4_challenge_check_priority_and_no_interaction worldCaptcha
    "user@example.com" "pw" "#nav-link-accountList" "#ap_email" "#continue"
    "#ap_password" "#signInSubmit" (by decide) (by decide) (by decide)
    (by decide) (by decide) (by decide) (by decide)
  exact ⟨h.1 (by decide), h.2.2.2.1.1,
    fun sel hsel v => (h.2.2.2.2 sel hsel).1 v⟩

/-- Claim C3 counterexample: discovery slices the matched containers to
`max_products` *before* validating ASINs (`product_cards[:max_products]`), so
a container with a missing ASIN does consume a slot.  With 5 matching
containers, the second lacking its ASIN, and `maxProducts = 3`, only 2
products are returned (the claim requires exactly 3), and their positions are
1 and 3 — container indices, not a contiguous product ranking. -/
theorem c3_slot_budget_counterexample :
    (search_products searchPageC 3).length = 2
    ∧ (cardsC.filter (fun c => !falsyStr c.asin)).length = 4
    ∧ (search_products searchPageC 3).map Product.position = [1, 3] := by
  exact ⟨by decide, by decide, by decide⟩

/-- Claim C3 (amended): discovery visits only the first `maxProducts` matched
containers (the slice is taken before any validation); within that slice a
container is skipped — while still consuming a slot — when its ASIN is
missing/empty, or when its rating locator matches two or more elements (the
rating read lacks `.first`, so it raises in strict mode and the per-card
`except` skips the card).  The number of Products returned therefore equals
the number of buildable containers among those visited, and each Product's
`position` is 1 plus its container's index in the visited slice (so positions
may have gaps).  Only when every visited container is buildable are exactly
`min maxProducts containerCount` Products returned with positions `1, 2, …`. -/
theorem c3_slot_budget_amended (pg : SearchPage) (k : Nat) (sel : String)
    (hsel : firstMatchingSelector pg.selCount search_result_selectors = some sel) :
    (∀ (i : Nat) (c : Card), 2 ≤ c.ratingCount → buildProduct i c = none)
    ∧ (search_products pg k).length
      = (((pg.cards sel).take k).filter (fun c => cardBuilt c)).length
    ∧ (search_products pg k).map Product.position
      = ((((pg.cards sel).take k).enum).filter (fun ic => cardBuilt ic.2)).map
          (fun ic => ic.1 + 1)
    ∧ ((∀ c ∈ (pg.cards sel).take k, cardBuilt c = true) →
        (search_products pg k).map Product.position
          = List.range' 1 (min k (pg.cards sel).length)) := by
  have hsp : search_products pg k
      = (((pg.cards sel).take k).enum).filterMap (fun ic => buildProduct ic.1 ic.2) := by
    simp only [search_products, hsel]
  have he : ((pg.cards sel).take k).enum
      = List.enumFrom 0 ((pg.cards sel).take k) := rfl
  have hmain := enumFrom_filterMap_buildProduct ((pg.cards sel).take k) 0
  refine ⟨buildProduct_strict_skip, ?_, ?_, ?_⟩
  · rw [hsp, he]; exact hmain.2
  · rw [hsp, he, hmain.1]
  · intro hall
    have hfe : (List.enumFrom 0 ((pg.cards sel).take k)).filter
          (fun ic => cardBuilt ic.2)
        = List.enumFrom 0 ((pg.cards sel).take k) := by
      apply List.filter_eq_self.mpr
      intro a ha
      have hmem := mem_of_mem_enumFrom ((pg.cards sel).take k) 0 a ha
      exact hall a.2 hmem
    rw [hsp, he, hmain.1, hfe, map_fst_succ_enumFrom, List.length_take]

/-- Witness for C3 (amended): five well-formed containers and
`maxProducts = 3` yield exactly 3 products at positions 1, 2, 3, and a card
whose rating locator matches two elements yields no Product. -/
theorem c3_slot_budget_amended_witness :
    (search_products searchPageG 3).length = 3
    ∧ (search_products searchPageG 3).map Product.position = [1, 2, 3]
    ∧ buildProduct 0 cardTwoRatings = none := by
  have h := c3_slot_budget_amended searchPageG 3
    "[data-component-type=\"s-search-result\"]" (by decide)
  refine ⟨?_, ?_, h.1 0 cardTwoRatings (by decide)⟩
  · rw [h.2.1]; decide
  · rw [h.2.2.2 (by decide)]; decide

/-- Claim C9 counterexample: an unresolved reviewer field does not default to
the empty string (nor zero, nor false) — the emitted review carries the
sentinel `"Anonymous"`. -/
theorem c9_field_default_counterexample :
    (extractReviewElem "A1" "T" elem0).map Review.reviewer = some "Anonymous"
    ∧ "Anonymous" ≠ "" := by
  exact ⟨by decide, by decide⟩

/-- Claim C9 (amended): within the review loop, fields are resolved
independently and a failure of a field's selector to match yields that field's
default — `"Anonymous"` for the reviewer (not the empty string), `0.0` rating,
`""` date, `""` content, `false` verified flag, `0` helpful votes — while the
Review is still emitted.  The emission guarantee requires the element to avoid
the loop body's two raise paths, each of which ends in the `except` that skips
that single review: a field locator matching two or more elements (the
strict-mode raise — the per-field text reads lack `.first`), and a null text
on a matched reviewer or content element. -/
theorem c9_partial_reviews_amended :
    (∀ (asin title : String) (e : ReviewElem),
        2 ≤ e.reviewerCount ∨ 2 ≤ e.ratingCount ∨ 2 ≤ e.dateCount
          ∨ 2 ≤ e.contentCount ∨ 2 ≤ e.helpfulCount →
        extractReviewElem asin title e = none)
    ∧ (∀ (asin title : String) (e : ReviewElem),
        e.reviewerCount ≤ 1 → e.ratingCount ≤ 1 → e.dateCount ≤ 1 →
        e.contentCount ≤ 1 → e.helpfulCount ≤ 1 →
        (e.reviewerCount > 0 → e.reviewerText ≠ none) →
        (e.contentCount > 0 → e.contentText ≠ none) →
        ∃ r, extractReviewElem asin title e = some r
          ∧ (e.reviewerCount = 0 → r.reviewer = "Anonymous")
          ∧ (e.ratingCount = 0 → r.rating = 0)
          ∧ (e.dateCount = 0 → r.date = "")
          ∧ (e.contentCount = 0 → r.content = "")
          ∧ (e.verifiedCount = 0 → r.verified_purchase = false)
          ∧ (e.helpfulCount = 0 → r.helpful_votes = 0)) := by
  constructor
  · intro asin title e hg
    rw [extractReviewElem, if_pos hg]
  intro asin title e hb1 hb2 hb3 hb4 hb5 hr hc
  obtain ⟨tr, htr⟩ : ∃ t,
      (if e.reviewerCount > 0 then e.reviewerText else some "Anonymous") = some t := by
    by_cases h : e.reviewerCount > 0
    · rcases Option.ne_none_iff_exists'.mp (hr h) with ⟨t, ht⟩
      exact ⟨t, by rw [if_pos h, ht]⟩
    · exact ⟨"Anonymous", by rw [if_neg h]⟩
  obtain ⟨tc, htc⟩ : ∃ t,
      (if e.contentCount > 0 then e.contentText else some "") = some t := by
    by_cases h : e.contentCount > 0
    · rcases Option.ne_none_iff_exists'.mp (hc h) with ⟨t, ht⟩
      exact ⟨t, by rw [if_pos h, ht]⟩
    · exact ⟨"", by rw [if_neg h]⟩
  refine ⟨{ product_id := asin, product_title := title, reviewer := stripStr tr,
            rating := extract_rating_from_stars_opt
              (if e.ratingCount > 0 then e.ratingText else some ""),
            date := clean_date_opt (if e.dateCount > 0 then e.dateText else some ""),
            verified_purchase := decide (e.verifiedCount > 0),
            content := stripStr tc,
            helpful_votes := extract_helpful_votes_opt
              (if e.helpfulCount > 0 then e.helpfulText else some "") },
          ?_, ?_, ?_, ?_, ?_, ?_, ?_⟩
  · have hg : ¬ (2 ≤ e.reviewerCount ∨ 2 ≤ e.ratingCount ∨ 2 ≤ e.dateCount
        ∨ 2 ≤ e.contentCount ∨ 2 ≤ e.helpfulCount) := by omega
    rw [extractReviewElem, if_neg hg]
    simp only [htr, htc]
  · intro h0
    have : tr = "Anonymous" := by
      rw [if_neg (by omega)] at htr
      exact (Option.some.inj htr).symm
    show stripStr tr = "Anonymous"
    rw [this]; decide
  · intro h0
    show extract_rating_from_stars_opt
        (if e.ratingCount > 0 then e.ratingText else some "") = 0
    rw [h0]; rfl
  · intro h0
    show clean_date_opt (if e.dateCount > 0 then e.dateText else some "") = ""
    rw [h0]; rfl
  · intro h0
    have : tc = "" := by
      rw [if_neg (by omega)] at htc
      exact (Option.some.inj htc).symm
    show stripStr tc = ""
    rw [this]; decide
  · intro h0
    show decide (e.verifiedCount > 0) = false
    simp [h0]
  · intro h0
    show extract_helpful_votes_opt
        (if e.helpfulCount > 0 then e.helpfulText else some "") = 0
    rw [h0]; rfl

/-- Witness for C9 (amended) at an element none of whose field selectors
match: the review is still emitted, with the sentinel reviewer; an element
whose reviewer locator matches two elements is skipped. -/
theorem c9_partial_reviews_amended_witness :
    extractReviewElem "A1" "T" elem0 = some review0
    ∧ review0.reviewer = "Anonymous"
    ∧ extractReviewElem "A1" "T" elemTwoReviewers = none := by
  obtain ⟨r, hsome, hrev, -, -, -, -, -⟩ :=
    c9_partial_reviews_amended.2 "A1" "T" elem0
      (by decide) (by decide) (by decide) (by decide) (by decide)
      (fun h => absurd h (by decide)) (fun h => absurd h (by decide))
  have he : extractReviewElem "A1" "T" elem0 = some review0 := by decide
  have hr0 : r = review0 := Option.some.inj (hsome.symm.trans he)
  exact ⟨he, hr0 ▸ hrev (by decide),
    c9_partial_reviews_amended.1 "A1" "T" elemTwoReviewers (by decide)⟩

/-- Claim C10 counterexample: ratings are not clamped to the claimed interval
`[0, 5]` — a rating text asserting `"9 out of 5 stars"` produces an emitted
review with rating `9 > 5`. -/
theorem c10_rating_range_counterexample :
    (extract_reviews_from_page "A1" "T" pageHighRating).map Review.rating = [9]
    ∧ ¬ ((9 : ℚ) ≤ 5) := by
  constructor
  · have h : (extract_reviews_from_page "A1" "T" pageHighRating).map Review.rating
        = [mkRat 9 1] := rfl
    rw [h, Rat.mkRat_eq_div]
    norm_num
  · norm_num

/-- Claim C10 (amended): every review emitted by the per-page extractor has a
non-negative rating (and its helpful-vote count is a natural number, hence
non-negative by construction); the upper bound 5 is not enforced. -/
theorem c10_rating_nonneg_amended (asin title : String) (p : ReviewPage)
    (r : Review) (hmem : r ∈ extract_reviews_from_page asin title p) :
    0 ≤ r.rating := by
  have h1 : ∃ e, extractReviewElem asin title e = some r := by
    rw [extract_reviews_from_page] at hmem
    by_cases hs : signinRedirect p.url
    · rw [if_pos hs] at hmem; simp at hmem
    · rw [if_neg hs] at hmem
      obtain ⟨e, -, he⟩ := List.mem_filterMap.mp hmem
      exact ⟨e, he⟩
  obtain ⟨e, he⟩ := h1
  rw [extractReviewElem_rating asin title e r he]
  exact extract_rating_from_stars_opt_nonneg _

/-- Witness for C10 (amended) at a concrete emitted review. -/
theorem c10_rating_nonneg_amended_witness : (0 : ℚ) ≤ review0.rating :=
  c10_rating_nonneg_amended "A1" "T" pageFull review0 (by decide)

/-- Claim C8 counterexample: `_clean_date` is not idempotent.  `re.sub`
deletes every occurrence of `Reviewed in.*?on\s+`, and deletion can splice the
surrounding text into a fresh occurrence: on
`"Reviewed iReviewed in A on n B on C"` the first application yields
`"Reviewed in B on C"`, and the second strips again to `"C"`. -/
theorem c8_date_normalizer_counterexample :
    clean_date (clean_date "Reviewed iReviewed in A on n B on C")
      ≠ clean_date "Reviewed iReviewed in A on n B on C" := by
  decide

/-- Claim C8 (amended): the normalizer removes every non-overlapping
`"Reviewed in ... on "` occurrence (shortest span) and returns the
whitespace-trimmed remainder; the flagship example maps as claimed; an input
containing no `"Reviewed in"` at all is returned merely trimmed (hence
unchanged only when already trimmed); and re-application is a no-op whenever
the first output contains no residual pattern occurrence — but not in
general, per the counterexample. -/
theorem c8_date_normalizer_amended :
    clean_date "Reviewed in the United States on January 5, 2023" = "January 5, 2023"
    ∧ (∀ s : String, containsSub "Reviewed in".data s.data = false →
        clean_date s = stripStr s)
    ∧ (∀ s : String, subReviewed (clean_date s).data = (clean_date s).data →
        clean_date (clean_date s) = clean_date s) := by
  refine ⟨by decide, ?_, ?_⟩
  · intro s h
    by_cases hs : s = ""
    · subst hs; decide
    · rw [clean_date, if_neg hs, subReviewed_of_not_contains s.data h]
  · intro s h
    by_cases hy : clean_date s = ""
    · rw [hy]; decide
    · rw [clean_date, if_neg hy, h]
      by_cases hs : s = ""
      · rw [hs] at hy; exact absurd rfl hy
      · rw [clean_date, if_neg hs]
        exact stripStr_idem _

/-- Witness for C8 (amended) at concrete inputs: a pattern-free padded string
is returned trimmed, and a second application on a residue-free output is a
no-op. -/
theorem c8_date_normalizer_amended_witness :
    clean_date "  raw date  " = stripStr "  raw date  "
    ∧ stripStr "  raw date  " = "raw date"
    ∧ clean_date (clean_date "Reviewed in the US on Jan 5")
        = clean_date "Reviewed in the US on Jan 5" := by
  refine ⟨c8_date_normalizer_amended.2.1 "  raw date  " (by decide), by decide,
    c8_date_normalizer_amended.2.2 "Reviewed in the US on Jan 5" (by decide)⟩

/-- Claim C6 counterexample: the discovery-side rating extraction
(`_extract_rating`) has no `"N star(s)"` fallback, so `"3 stars"` maps to `0`
there while the review-side parser maps it to `3` — the claimed common
behaviour fails on the discovery side. -/
theorem c6_rating_parser_counterexample :
    extract_rating "3 stars" = 0
    ∧ extract_rating_from_stars "3 stars" = 3
    ∧ (0 : ℚ) ≠ 3 := by
  refine ⟨rfl, ?_, by norm_num⟩
  have h : extract_rating_from_stars "3 stars" = mkRat 3 1 := rfl
  rw [h, Rat.mkRat_eq_div]; norm_num

/-- Claim C6 (amended): the review-side parser `_extract_rating_from_stars`
behaves as claimed (`"4.5 out of 5 stars" ↦ 4.5`, `"3 stars" ↦ 3.0`,
`"" ↦ 0.0`); the discovery-side `_extract_rating` instead extracts the decimal
before the bare pattern `"out of"` — without requiring `"5"` and with no
star fallback — returning `0.0` otherwise. -/
theorem c6_rating_parsers_amended :
    extract_rating_from_stars "4.5 out of 5 stars" = 9/2
    ∧ extract_rating_from_stars "3 stars" = 3
    ∧ extract_rating_from_stars "" = 0
    ∧ extract_rating "4.5 out of 5 stars" = 9/2
    ∧ extract_rating "3 stars" = 0
    ∧ extract_rating "2 out of 10" = 2
    ∧ extract_rating "" = 0 := by
  refine ⟨?_, ?_, rfl, ?_, rfl, ?_, rfl⟩
  · have h : extract_rating_from_stars "4.5 out of 5 stars" = mkRat 45 10 := rfl
    rw [h, Rat.mkRat_eq_div]; norm_num
  · have h : extract_rating_from_stars "3 stars" = mkRat 3 1 := rfl
    rw [h, Rat.mkRat_eq_div]; norm_num
  · have h : extract_rating "4.5 out of 5 stars" = mkRat 45 10 := rfl
    rw [h, Rat.mkRat_eq_div]; norm_num
  · have h : extract_rating "2 out of 10" = mkRat 2 1 := rfl
    rw [h, Rat.mkRat_eq_div]; norm_num

/-- Claim C7 counterexample: the helpful-votes regex `(\d+)\s+people?\s+found`
never matches the singular phrasing `"person found"`, so the leading integer
of `"1 person found this helpful"` is not extracted — the code returns `0`
where the claim (extraction for the singular phrasing) requires `1`. -/
theorem c7_helpful_votes_counterexample :
    extract_helpful_votes "1 person found this helpful" = 0
    ∧ (0 : Nat) ≠ 1 := by
  exact ⟨by decide, by decide⟩

/-- Claim C7 (amended): the parser extracts the leading integer preceding the
plural phrasing `"people found"` only (the regex `people?` also tolerates the
fragment `"peopl"`, never the singular `"person"`); it returns `0` when no
such integer is present, including for any `"person found"` phrasing. -/
theorem c7_helpful_votes_amended :
    extract_helpful_votes "23 people found this helpful" = 23
    ∧ extract_helpful_votes "One person found this helpful" = 0
    ∧ extract_helpful_votes "1 person found this helpful" = 0
    ∧ extract_helpful_votes "7 peopl found this helpful" = 7
    ∧ extract_helpful_votes "" = 0 := by
  exact ⟨by decide, by decide, by decide, by decide, rfl⟩

end AmazonGet
